import Mathlib

/-!
Verification of the WLED battery usermod (src/usermods/Battery/usermod_v2_Battery.h).

The `UsermodBattery` class is embedded shallowly: its fields become a Lean
structure `BatteryState`; its methods become pure state-transformation
functions.  `int8_t` fields are modelled as `Int` with explicit truncation
(`toInt8`) at every assignment whose right-hand side is computed in C `int`
arithmetic; `unsigned long` time values are modelled as `Nat` with explicit
reduction modulo 2^32 where the C code's 32-bit arithmetic can wrap.
External side effects (`applyPreset`, `stateUpdated`) are recorded in the
state (`presetLog`, `stateUpdates`); the voltage→level conversion of the
chemistry objects (whose headers are outside the embedded file) is a
function parameter of the `loop` embedding.
-/

namespace WledBattery

/-- Truncation of a C `int` value to `int8_t` (two's complement wrap). -/
def toInt8 (x : Int) : Int := (x + 128) % 256 - 128

/-- 2^32, the modulus of `unsigned long` arithmetic on the ESP targets. -/
def U32 : Nat := 4294967296

/-- C conversion of a (possibly negative) `int` to `unsigned long`. -/
def u32ofInt (x : Int) : Nat := (x % (4294967296 : Int)).toNat

/-- The mutable fields of `UsermodBattery`, plus the observable effects on
the host (`bri`, `stateUpdates`, `presetLog`) and the cached battery
reading (`batVoltage`, `batLevel`, the values returned by `bat->getVoltage()`
and `bat->getLevel()`). -/
structure BatteryState where
  batteryPin : Int
  readingInterval : Nat
  nextReadTime : Nat
  lastReadTime : Nat
  autoOffEnabled : Bool
  autoOffThreshold : Int
  lowPowerIndicatorEnabled : Bool
  lowPowerIndicatorPreset : Int
  lowPowerIndicatorThreshold : Int
  lowPowerIndicatorReactivationThreshold : Int
  lowPowerIndicatorDuration : Int
  lowPowerIndicationDone : Bool
  lowPowerActivationTime : Nat
  lastPreset : Int
  initializing : Bool
  batVoltage : Int
  batLevel : Int
  bri : Nat
  currentPreset : Int
  presetLog : List Int
  stateUpdates : Nat
  deriving Repr, DecidableEq

/-- WLED's `applyPreset(id)`: recorded as an appended entry in the log. -/
def applyPreset (id : Int) (s : BatteryState) : BatteryState :=
  {s with presetLog := s.presetLog ++ [id]}

/-- `turnOff()` (lines 66–70): `bri = 0; stateUpdated(CALL_MODE_DIRECT_CHANGE);`. -/
def turnOff (s : BatteryState) : BatteryState :=
  {s with bri := 0, stateUpdates := s.stateUpdates + 1}

/-- `lowPowerIndicator()` (lines 75–93), one invocation at time `now`
(= `millis()`).  The duration product `lowPowerIndicatorDuration*1000` is
computed in C `int` and added to the `unsigned long` activation time, hence
the `u32ofInt` and the reduction mod 2^32. -/
def lowPowerIndicator (now : Nat) (s : BatteryState) : BatteryState :=
  if !s.lowPowerIndicatorEnabled then s
  else if s.batteryPin < 0 then s
  else
    let s1 := if s.lowPowerIndicationDone ∧
                 s.lowPowerIndicatorReactivationThreshold ≤ s.batLevel
              then {s with lowPowerIndicationDone := false} else s
    if s1.lowPowerIndicatorThreshold ≤ s1.batLevel then s1
    else if s1.lowPowerIndicationDone then s1
    else
      let s2 := if s1.lowPowerActivationTime ≤ 1 then
          applyPreset s1.lowPowerIndicatorPreset
            {s1 with lowPowerActivationTime := now, lastPreset := s1.currentPreset}
        else s1
      if (s2.lowPowerActivationTime +
            u32ofInt (s2.lowPowerIndicatorDuration * 1000)) % U32 ≤ now then
        applyPreset s2.lastPreset
          {s2 with lowPowerIndicationDone := true, lowPowerActivationTime := 0}
      else s2

/-- The sampling half of `loop()` (lines 164–205): schedule check, schedule
advance, pin check, sample, auto-off.  `calcLevel` stands for the chemistry
object's `calculateAndSetLevel`, `voltage` for the value produced by the
ADC-to-volts conversion. -/
def samplingPhase (calcLevel : Int → Int) (now : Nat) (voltage : Int)
    (s : BatteryState) : BatteryState :=
  if now < s.nextReadTime then s
  else
    let s2 := {s with nextReadTime := (now + s.readingInterval) % U32,
                      lastReadTime := now}
    if s2.batteryPin < 0 then s2
    else
      let s3 := {s2 with initializing := false, batVoltage := voltage,
                         batLevel := calcLevel voltage}
      if s3.autoOffEnabled ∧ s3.batLevel ≤ s3.autoOffThreshold then turnOff s3
      else s3

/-- `loop()` (lines 157–205): the strip-updating guard, then the indicator
state machine, then the sampling phase. -/
def loop (calcLevel : Int → Int) (now : Nat) (stripUpdating : Bool)
    (voltage : Int) (s : BatteryState) : BatteryState :=
  if stripUpdating then s
  else samplingPhase calcLevel now voltage (lowPowerIndicator now s)

/-- Modelled from the spec: the `Unkown` chemistry null object
(`unkown.h` is not among the embedded sources); its `calculateLevel`
"always returns −1 regardless of input". -/
def unknownCalculateLevel (_voltage : Int) : Int := -1

/-- `setReadingInterval(newReadingInterval)` (lines 508–511). -/
def setReadingInterval (newReadingInterval : Nat) (s : BatteryState) :
    BatteryState :=
  {s with readingInterval := max 3000 newReadingInterval}

/-- `setAutoOffThreshold(threshold)` (lines 557–562): clamp to [0,100] in
`int8_t` arithmetic, then, when the indicator is enabled, take the `int`
minimum with `lowPowerIndicatorThreshold-1` and truncate back to `int8_t`. -/
def setAutoOffThreshold (threshold : Int) (s : BatteryState) : BatteryState :=
  let a1 := min 100 (max 0 threshold)
  let a2 := if s.lowPowerIndicatorEnabled
            then toInt8 (min (s.lowPowerIndicatorThreshold - 1) a1) else a1
  {s with autoOffThreshold := a2}

/-- `setLowPowerIndicatorThreshold(threshold)` (lines 611–616): store the
argument, then take the `int` maximum with `autoOffThreshold+1` (auto-off
enabled) or `5` (auto-off disabled) and truncate back to `int8_t`. -/
def setLowPowerIndicatorThreshold (threshold : Int) (s : BatteryState) :
    BatteryState :=
  let l2 := if s.autoOffEnabled then toInt8 (max (s.autoOffThreshold + 1) threshold)
            else toInt8 (max 5 threshold)
  {s with lowPowerIndicatorThreshold := l2}

/-- The indicator section of `readFromConfig()` (lines 413–418): enable
flag, preset, threshold through the setter, then the assignment
`lowPowerIndicatorReactivationThreshold = lowPowerIndicatorThreshold+10`,
then the duration. -/
def readFromConfigIndicator (en : Bool) (preset threshold duration : Int)
    (s : BatteryState) : BatteryState :=
  let s1 := {s with lowPowerIndicatorEnabled := en}
  let s2 := {s1 with lowPowerIndicatorPreset := preset}
  let s3 := setLowPowerIndicatorThreshold threshold s2
  let s4 := {s3 with lowPowerIndicatorReactivationThreshold :=
                      toInt8 (s3.lowPowerIndicatorThreshold + 10)}
  {s4 with lowPowerIndicatorDuration := duration}

/-- The "Next update" computation of `addToJsonInfo()` (line 229):
`(nextReadTime - millis()) / 1000` in `unsigned long` arithmetic. -/
def nextUpdateSeconds (nextReadTime now : Nat) : Nat :=
  ((nextReadTime % U32 + U32 - now % U32) % U32) / 1000

/-- A concrete state used to build explicit test inputs. -/
def mkState : BatteryState where
  batteryPin := 0
  readingInterval := 3000
  nextReadTime := 0
  lastReadTime := 0
  autoOffEnabled := false
  autoOffThreshold := 10
  lowPowerIndicatorEnabled := false
  lowPowerIndicatorPreset := 1
  lowPowerIndicatorThreshold := 20
  lowPowerIndicatorReactivationThreshold := 30
  lowPowerIndicatorDuration := 5
  lowPowerIndicationDone := false
  lowPowerActivationTime := 0
  lastPreset := 0
  initializing := true
  batVoltage := -1
  batLevel := -1
  bri := 128
  currentPreset := 0
  presetLog := []
  stateUpdates := 0

/-- Start state of the C1 counterexample run: indicator enabled, auto-off
disabled (a legal fixed flag configuration). -/
def c1seq0 : BatteryState :=
  { mkState with lowPowerIndicatorEnabled := true, autoOffEnabled := false }

/-- State after the three setter calls of the C1 counterexample run. -/
def c1seq3 : BatteryState :=
  setLowPowerIndicatorThreshold 5
    (setAutoOffThreshold 90 (setLowPowerIndicatorThreshold 100 c1seq0))

/-- An indication that is Active (preset applied at `millis() = 1000`,
duration 30 s, saved preset 3) with the cached level 10, still below the
threshold 20. -/
def c2active : BatteryState :=
  { mkState with
    lowPowerIndicatorEnabled := true, batteryPin := 0,
    lowPowerIndicatorThreshold := 20, lowPowerIndicatorReactivationThreshold := 30,
    lowPowerIndicationDone := false, lowPowerActivationTime := 1000,
    lowPowerIndicatorDuration := 30, lastPreset := 3, batLevel := 10,
    presetLog := [7] }

/-- The same Active indication, but the cached level has recovered to 25
(above the threshold 20) before the duration window has elapsed. -/
def c2state : BatteryState := { c2active with batLevel := 25 }

/-- State for the C3 witness: an indication already done, level back at the
threshold. -/
def c3state : BatteryState :=
  { mkState with
    lowPowerIndicatorEnabled := true, batteryPin := 0,
    lowPowerIndicatorThreshold := 20, lowPowerIndicatorReactivationThreshold := 30,
    lowPowerIndicationDone := true, lowPowerActivationTime := 0,
    batLevel := 20 }

/-- Scenario state of C4: autoOffThreshold 10, indicator enabled with
threshold 15. -/
def c4state : BatteryState :=
  { mkState with
    autoOffThreshold := 10,
    lowPowerIndicatorEnabled := true, lowPowerIndicatorThreshold := 15 }

/-- State for the C5 counterexample: threshold 15 with its matching
reactivation threshold 25. -/
def c5state : BatteryState :=
  { mkState with
    autoOffEnabled := false,
    lowPowerIndicatorThreshold := 15, lowPowerIndicatorReactivationThreshold := 25 }

/-- State for the C6 counterexample: indicator disabled, auto-off enabled
with threshold 0. -/
def c6state : BatteryState :=
  { mkState with
    lowPowerIndicatorEnabled := false, autoOffEnabled := true,
    autoOffThreshold := 0 }

/-- State for the C1 witness: both features enabled, thresholds 10 and 15. -/
def c1wstate : BatteryState :=
  { mkState with
    lowPowerIndicatorEnabled := true, autoOffEnabled := true,
    autoOffThreshold := 10, lowPowerIndicatorThreshold := 15 }

/-- State for the C7 witness: a sample due at `millis() = 5000`. -/
def c7state : BatteryState :=
  { mkState with nextReadTime := 5000, batteryPin := 0, readingInterval := 3000 }

/-- The C7 witness state with an invalid measurement pin. -/
def c7nopin : BatteryState := { c7state with batteryPin := -1 }

/-- State for the C9 witness: auto-off enabled with threshold 10, valid pin,
sample due. -/
def c9state : BatteryState :=
  { mkState with
    autoOffEnabled := true, autoOffThreshold := 10, batteryPin := 0,
    nextReadTime := 0 }

theorem toInt8_eq_self (x : Int) (h1 : -128 ≤ x) (h2 : x ≤ 127) : toInt8 x = x := by
  unfold toInt8
  omega

theorem expiry_norm (a : Nat) (d : Int) (hd : 0 ≤ d)
    (hov : a + (d * 1000).toNat < U32) :
    (a + u32ofInt (d * 1000)) % U32 = a + (d * 1000).toNat := by
  unfold u32ofInt U32 at *
  omega

theorem lowPowerIndicator_frame (now : Nat) (s : BatteryState) :
    (lowPowerIndicator now s).batteryPin = s.batteryPin ∧
    (lowPowerIndicator now s).nextReadTime = s.nextReadTime ∧
    (lowPowerIndicator now s).readingInterval = s.readingInterval ∧
    (lowPowerIndicator now s).lastReadTime = s.lastReadTime ∧
    (lowPowerIndicator now s).autoOffEnabled = s.autoOffEnabled ∧
    (lowPowerIndicator now s).autoOffThreshold = s.autoOffThreshold ∧
    (lowPowerIndicator now s).initializing = s.initializing ∧
    (lowPowerIndicator now s).batVoltage = s.batVoltage ∧
    (lowPowerIndicator now s).batLevel = s.batLevel ∧
    (lowPowerIndicator now s).bri = s.bri ∧
    (lowPowerIndicator now s).stateUpdates = s.stateUpdates := by
  unfold lowPowerIndicator applyPreset
  repeat' split <;> simp_all

/-- C1 (counterexample): with the indicator enabled and auto-off disabled —
a fixed enabled-flag configuration — the call sequence
`setLowPowerIndicatorThreshold 100; setAutoOffThreshold 90;
setLowPowerIndicatorThreshold 5` ends in a state where the indicator is
enabled but `autoOffThreshold = 90 ≥ 5 = lowPowerIndicatorThreshold`: the
cross-field invariant does not hold after every call. -/
theorem C1_invariant_counterexample :
    c1seq0.lowPowerIndicatorEnabled = true ∧ c1seq0.autoOffEnabled = false ∧
    c1seq3 = setLowPowerIndicatorThreshold 5
      (setAutoOffThreshold 90 (setLowPowerIndicatorThreshold 100 c1seq0)) ∧
    c1seq3.lowPowerIndicatorEnabled = true ∧
    c1seq3.autoOffThreshold = 90 ∧ c1seq3.lowPowerIndicatorThreshold = 5 ∧
    ¬ c1seq3.autoOffThreshold < c1seq3.lowPowerIndicatorThreshold := by
  decide

/-- C1 (amended): `setAutoOffThreshold` re-establishes the invariant when
the indicator is enabled (absent `int8_t` wrap of an indicator threshold of
−128), and `setLowPowerIndicatorThreshold` re-establishes it when auto-off
is enabled (absent wrap of an auto-off threshold of 127); but a
`setLowPowerIndicatorThreshold` call made while auto-off is disabled only
enforces the floor of 5 and can leave `autoOffThreshold ≥
lowPowerIndicatorThreshold` with the indicator enabled, as the
counterexample shows. -/
theorem C1_threshold_setters_invariant (t : Int) (s : BatteryState) :
    (s.lowPowerIndicatorEnabled = true → -128 < s.lowPowerIndicatorThreshold →
      s.lowPowerIndicatorThreshold ≤ 127 →
      (setAutoOffThreshold t s).autoOffThreshold <
        (setAutoOffThreshold t s).lowPowerIndicatorThreshold) ∧
    (s.autoOffEnabled = true → -128 ≤ s.autoOffThreshold →
      s.autoOffThreshold ≤ 126 → t ≤ 127 →
      (setLowPowerIndicatorThreshold t s).autoOffThreshold <
        (setLowPowerIndicatorThreshold t s).lowPowerIndicatorThreshold) := by
  constructor
  · intro hEn h1 h2
    simp [setAutoOffThreshold, hEn, toInt8]
    omega
  · intro hAo h1 h2 h3
    simp [setLowPowerIndicatorThreshold, hAo, toInt8]
    omega

theorem C1_threshold_setters_invariant_witness :
    (setAutoOffThreshold 20 c1wstate).autoOffThreshold <
      (setAutoOffThreshold 20 c1wstate).lowPowerIndicatorThreshold ∧
    (setLowPowerIndicatorThreshold 3 c1wstate).autoOffThreshold <
      (setLowPowerIndicatorThreshold 3 c1wstate).lowPowerIndicatorThreshold :=
  ⟨(C1_threshold_setters_invariant 20 c1wstate).1 (by decide) (by decide) (by decide),
   (C1_threshold_setters_invariant 3 c1wstate).2 (by decide) (by decide) (by decide)
     (by decide)⟩

/-- C2 (counterexample): an Active indication (enabled, pin valid, preset
applied at activation time 1000, duration 30 s) whose cached level has
recovered to 25, at or above the threshold 20.  At `millis() = 31000` the
duration window has elapsed, yet the tick leaves the state completely
unchanged: the saved preset is not restored, `lowPowerActivationTime` is
not cleared, and the indication-done flag is not set — contrary to the
claim that expiry is handled regardless of interim level changes. -/
theorem C2_expiry_counterexample :
    c2state.lowPowerIndicatorEnabled = true ∧ 0 ≤ c2state.batteryPin ∧
    c2state.lowPowerIndicationDone = false ∧
    1 < c2state.lowPowerActivationTime ∧
    c2state.lowPowerActivationTime +
      (c2state.lowPowerIndicatorDuration * 1000).toNat ≤ 31000 ∧
    c2state.lowPowerIndicatorThreshold ≤ c2state.batLevel ∧
    lowPowerIndicator 31000 c2state = c2state := by
  decide

/-- C2 (amended): for an Active indication (enabled, pin valid, done flag
clear, activation time > 1, non-negative duration, no 32-bit overflow of the
expiry sum), every tick strictly inside the duration window leaves the state
unchanged (in particular the saved preset is not restored); a tick at or
after expiry restores the saved preset, clears the activation time and sets
the done flag only if the cached level is still strictly below the
indicator threshold — if the level has recovered to the threshold or above,
the tick changes nothing and the restoration is postponed. -/
theorem C2_active_window (now : Nat) (s : BatteryState)
    (hEn : s.lowPowerIndicatorEnabled = true)
    (hPin : 0 ≤ s.batteryPin)
    (hDone : s.lowPowerIndicationDone = false)
    (hAct : 1 < s.lowPowerActivationTime)
    (hDur : 0 ≤ s.lowPowerIndicatorDuration)
    (hOv : s.lowPowerActivationTime +
      (s.lowPowerIndicatorDuration * 1000).toNat < U32) :
    (now < s.lowPowerActivationTime +
        (s.lowPowerIndicatorDuration * 1000).toNat →
      lowPowerIndicator now s = s) ∧
    (s.lowPowerActivationTime + (s.lowPowerIndicatorDuration * 1000).toNat ≤ now →
      s.batLevel < s.lowPowerIndicatorThreshold →
      lowPowerIndicator now s =
        applyPreset s.lastPreset
          {s with lowPowerIndicationDone := true, lowPowerActivationTime := 0}) ∧
    (s.lowPowerActivationTime + (s.lowPowerIndicatorDuration * 1000).toNat ≤ now →
      s.lowPowerIndicatorThreshold ≤ s.batLevel →
      lowPowerIndicator now s = s) := by
  have hmod := expiry_norm s.lowPowerActivationTime s.lowPowerIndicatorDuration hDur hOv
  have hPin2 : ¬ s.batteryPin < 0 := by omega
  have hAct2 : ¬ s.lowPowerActivationTime ≤ 1 := by omega
  refine ⟨fun hlt => ?_, fun hge hlev => ?_, fun hge hlev => ?_⟩
  · by_cases hl : s.lowPowerIndicatorThreshold ≤ s.batLevel
    · simp [lowPowerIndicator, hEn, hPin2, hDone, hl]
    · have hexp : ¬ (s.lowPowerActivationTime +
          u32ofInt (s.lowPowerIndicatorDuration * 1000)) % U32 ≤ now := by
        rw [hmod]
        omega
      simp [lowPowerIndicator, hEn, hPin2, hDone, hl, hAct2, hexp]
  · have hexp : (s.lowPowerActivationTime +
        u32ofInt (s.lowPowerIndicatorDuration * 1000)) % U32 ≤ now := by
      rw [hmod]
      omega
    have hl : ¬ s.lowPowerIndicatorThreshold ≤ s.batLevel := by omega
    simp [lowPowerIndicator, hEn, hPin2, hDone, hl, hAct2, hexp, applyPreset]
  · simp [lowPowerIndicator, hEn, hPin2, hDone, hlev]

theorem C2_active_window_witness :
    lowPowerIndicator 5000 c2active = c2active ∧
    lowPowerIndicator 31000 c2active =
      applyPreset c2active.lastPreset
        {c2active with lowPowerIndicationDone := true,
                       lowPowerActivationTime := 0} ∧
    lowPowerIndicator 31000 c2state = c2state :=
  ⟨(C2_active_window 5000 c2active (by decide) (by decide) (by decide) (by decide)
      (by decide) (by decide)).1 (by decide),
   (C2_active_window 31000 c2active (by decide) (by decide) (by decide) (by decide)
      (by decide) (by decide)).2.1 (by decide) (by decide),
   (C2_active_window 31000 c2state (by decide) (by decide) (by decide) (by decide)
      (by decide) (by decide)).2.2 (by decide) (by decide)⟩

/-- C3 (confirmed): with the indicator enabled, the pin valid and the
reactivation threshold equal to the indicator threshold plus 10, a tick
whose cached level is at or above the indicator threshold never activates
(the preset log and the activation time are untouched); while the done
flag is latched no activation is possible either; and the done flag is
cleared by a tick exactly when the cached level is at or above the
reactivation threshold (threshold + 10). -/
theorem C3_hysteresis (now : Nat) (s : BatteryState)
    (hEn : s.lowPowerIndicatorEnabled = true)
    (hPin : 0 ≤ s.batteryPin)
    (hRe : s.lowPowerIndicatorReactivationThreshold =
      s.lowPowerIndicatorThreshold + 10) :
    (s.lowPowerIndicatorThreshold ≤ s.batLevel →
      (lowPowerIndicator now s).presetLog = s.presetLog ∧
      (lowPowerIndicator now s).lowPowerActivationTime =
        s.lowPowerActivationTime) ∧
    (s.lowPowerIndicationDone = true →
      (lowPowerIndicator now s).presetLog = s.presetLog ∧
      (lowPowerIndicator now s).lowPowerActivationTime =
        s.lowPowerActivationTime) ∧
    (s.lowPowerIndicationDone = true →
      ((lowPowerIndicator now s).lowPowerIndicationDone = false ↔
        s.lowPowerIndicatorReactivationThreshold ≤ s.batLevel)) := by
  have hPin2 : ¬ s.batteryPin < 0 := by omega
  refine ⟨fun hl => ?_, fun hd => ?_, fun hd => ?_⟩
  · by_cases hd : s.lowPowerIndicationDone <;>
      by_cases hre : s.lowPowerIndicatorReactivationThreshold ≤ s.batLevel <;>
      simp [lowPowerIndicator, hEn, hPin2, hd, hre, hl]
  · by_cases hre : s.lowPowerIndicatorReactivationThreshold ≤ s.batLevel
    · have hl : s.lowPowerIndicatorThreshold ≤ s.batLevel := by omega
      simp [lowPowerIndicator, hEn, hPin2, hd, hre, hl]
    · by_cases hl : s.lowPowerIndicatorThreshold ≤ s.batLevel <;>
        simp [lowPowerIndicator, hEn, hPin2, hd, hre, hl]
  · by_cases hre : s.lowPowerIndicatorReactivationThreshold ≤ s.batLevel
    · have hl : s.lowPowerIndicatorThreshold ≤ s.batLevel := by omega
      simp [lowPowerIndicator, hEn, hPin2, hd, hre, hl]
    · by_cases hl : s.lowPowerIndicatorThreshold ≤ s.batLevel <;>
        simp [lowPowerIndicator, hEn, hPin2, hd, hre, hl]

theorem C3_hysteresis_witness :
    ((lowPowerIndicator 1000 c3state).presetLog = c3state.presetLog ∧
      (lowPowerIndicator 1000 c3state).lowPowerActivationTime =
        c3state.lowPowerActivationTime) ∧
    ((lowPowerIndicator 1000 c3state).presetLog = c3state.presetLog ∧
      (lowPowerIndicator 1000 c3state).lowPowerActivationTime =
        c3state.lowPowerActivationTime) ∧
    ((lowPowerIndicator 1000 c3state).lowPowerIndicationDone = false ↔
      c3state.lowPowerIndicatorReactivationThreshold ≤ c3state.batLevel) :=
  ⟨(C3_hysteresis 1000 c3state (by decide) (by decide) (by decide)).1 (by decide),
   (C3_hysteresis 1000 c3state (by decide) (by decide) (by decide)).2.1 (by decide),
   (C3_hysteresis 1000 c3state (by decide) (by decide) (by decide)).2.2 (by decide)⟩

/-- C4 (confirmed): `setAutoOffThreshold(t)` clamps `t` to [0,100]; when the
indicator is enabled it additionally clamps the result to at most
`lowPowerIndicatorThreshold - 1` (for any indicator threshold in the
`int8_t` range above −128); and in the concrete scenario autoOffThreshold
10, indicator enabled with threshold 15, the call with argument 20 yields
autoOffThreshold 14. -/
theorem C4_setAutoOffThreshold_clamp (t : Int) (s : BatteryState) :
    (s.lowPowerIndicatorEnabled = false →
      (setAutoOffThreshold t s).autoOffThreshold = min 100 (max 0 t)) ∧
    (s.lowPowerIndicatorEnabled = true → -128 < s.lowPowerIndicatorThreshold →
      s.lowPowerIndicatorThreshold ≤ 127 →
      (setAutoOffThreshold t s).autoOffThreshold =
        min (s.lowPowerIndicatorThreshold - 1) (min 100 (max 0 t)) ∧
      (setAutoOffThreshold t s).autoOffThreshold ≤
        s.lowPowerIndicatorThreshold - 1) ∧
    (setAutoOffThreshold 20 c4state).autoOffThreshold = 14 := by
  refine ⟨fun h => ?_, fun h h1 h2 => ?_, by decide⟩
  · simp [setAutoOffThreshold, h]
  · have he : toInt8 (min (s.lowPowerIndicatorThreshold - 1) (min 100 (max 0 t)))
        = min (s.lowPowerIndicatorThreshold - 1) (min 100 (max 0 t)) := by
      unfold toInt8
      omega
    refine ⟨by simp [setAutoOffThreshold, h, he], ?_⟩
    simp [setAutoOffThreshold, h, he]

theorem C4_setAutoOffThreshold_clamp_witness :
    (setAutoOffThreshold (-7) mkState).autoOffThreshold = min 100 (max 0 (-7)) ∧
    (setAutoOffThreshold 50 c4state).autoOffThreshold =
      min (c4state.lowPowerIndicatorThreshold - 1) (min 100 (max 0 50)) ∧
    (setAutoOffThreshold 50 c4state).autoOffThreshold ≤
      c4state.lowPowerIndicatorThreshold - 1 :=
  ⟨(C4_setAutoOffThreshold_clamp (-7) mkState).1 (by decide),
   ((C4_setAutoOffThreshold_clamp 50 c4state).2.1 (by decide) (by decide)
     (by decide)).1,
   ((C4_setAutoOffThreshold_clamp 50 c4state).2.1 (by decide) (by decide)
     (by decide)).2⟩

/-- C5 (counterexample): from a state with threshold 15 and reactivation
threshold 25, the call `setLowPowerIndicatorThreshold 50` (auto-off
disabled) stores the new threshold 50 but leaves the reactivation threshold
at 25 ≠ 60: the setter itself does not recompute the derived field. -/
theorem C5_setter_counterexample :
    (setLowPowerIndicatorThreshold 50 c5state).lowPowerIndicatorThreshold = 50 ∧
    (setLowPowerIndicatorThreshold 50 c5state).lowPowerIndicatorReactivationThreshold
      = 25 ∧
    (setLowPowerIndicatorThreshold 50 c5state).lowPowerIndicatorReactivationThreshold
      ≠ (setLowPowerIndicatorThreshold 50 c5state).lowPowerIndicatorThreshold + 10 := by
  decide

/-- C5 (amended): `setLowPowerIndicatorThreshold` never modifies
`lowPowerIndicatorReactivationThreshold`; the derived field is recomputed
(to the clamped threshold plus 10, in `int8_t` arithmetic) only by the
`readFromConfig` sequence, which performs the assignment after invoking the
setter. -/
theorem C5_reactivation_recompute (t : Int) (en : Bool) (preset dur : Int)
    (s : BatteryState) :
    (setLowPowerIndicatorThreshold t s).lowPowerIndicatorReactivationThreshold =
      s.lowPowerIndicatorReactivationThreshold ∧
    (readFromConfigIndicator en preset t dur s).lowPowerIndicatorReactivationThreshold
      = toInt8
        ((readFromConfigIndicator en preset t dur s).lowPowerIndicatorThreshold
          + 10) :=
  ⟨rfl, rfl⟩

/-- C6 (counterexample): with the indicator disabled but auto-off enabled
at threshold 0, the call `setLowPowerIndicatorThreshold 1` stores 1 < 5:
the ≥ 5 floor is not maintained while the indicator is disabled, because
the branch taken depends on the auto-off flag instead. -/
theorem C6_floor_counterexample :
    c6state.lowPowerIndicatorEnabled = false ∧ c6state.autoOffEnabled = true ∧
    (setLowPowerIndicatorThreshold 1 c6state).lowPowerIndicatorThreshold = 1 ∧
    ¬ 5 ≤ (setLowPowerIndicatorThreshold 1 c6state).lowPowerIndicatorThreshold := by
  decide

/-- C6 (amended): the ≥ 5 floor of `setLowPowerIndicatorThreshold` is tied
to auto-off being disabled, not to the indicator being disabled: whenever
auto-off is disabled, any call with an `int8_t` argument leaves the stored
threshold at least 5; when auto-off is enabled the floor is
`autoOffThreshold + 1`, which can lie below 5 even while the indicator is
disabled, as the counterexample shows. -/
theorem C6_floor_amended (t : Int) (s : BatteryState)
    (h : s.autoOffEnabled = false) (ht : t ≤ 127) :
    5 ≤ (setLowPowerIndicatorThreshold t s).lowPowerIndicatorThreshold := by
  simp [setLowPowerIndicatorThreshold, h, toInt8]
  omega

theorem C6_floor_amended_witness :
    5 ≤ (setLowPowerIndicatorThreshold 1 mkState).lowPowerIndicatorThreshold :=
  C6_floor_amended 1 mkState (by decide) (by decide)

/-- C7 (confirmed): a tick of `loop()` (with the strip not updating) runs
the indicator state machine and then the sampling phase on its output; when
`now < nextReadTime` the tick is exactly the indicator step (no sampling,
no other state change, `initializing` untouched); when the sample is due,
`nextReadTime` is advanced to `now + readingInterval` (mod 2^32) and
`lastReadTime` set, whether or not the pin is valid; with an invalid pin
the tick leaves voltage, level and the `initializing` flag unchanged; and
`initializing` is cleared exactly in the due-and-valid-pin case. -/
theorem C7_loop_ordering (calcLevel : Int → Int) (now : Nat) (voltage : Int)
    (s : BatteryState) :
    (loop calcLevel now false voltage s =
      samplingPhase calcLevel now voltage (lowPowerIndicator now s)) ∧
    (now < s.nextReadTime →
      loop calcLevel now false voltage s = lowPowerIndicator now s) ∧
    (s.nextReadTime ≤ now →
      (loop calcLevel now false voltage s).nextReadTime =
        (now + s.readingInterval) % U32 ∧
      (loop calcLevel now false voltage s).lastReadTime = now) ∧
    (s.nextReadTime ≤ now → s.batteryPin < 0 →
      (loop calcLevel now false voltage s).batVoltage = s.batVoltage ∧
      (loop calcLevel now false voltage s).batLevel = s.batLevel ∧
      (loop calcLevel now false voltage s).initializing = s.initializing) ∧
    (s.nextReadTime ≤ now → 0 ≤ s.batteryPin →
      (loop calcLevel now false voltage s).initializing = false) ∧
    (now < s.nextReadTime →
      (loop calcLevel now false voltage s).initializing = s.initializing) := by
  obtain ⟨hf1, hf2, hf3, hf4, hf5, hf6, hf7, hf8, hf9, hf10, hf11⟩ :=
    lowPowerIndicator_frame now s
  refine ⟨rfl, fun h => ?_, fun h => ?_, fun h hp => ?_, fun h hp => ?_, fun h => ?_⟩
  · simp [loop, samplingPhase, hf2, h]
  · by_cases hp : s.batteryPin < 0 <;>
      by_cases hao : (lowPowerIndicator now s).autoOffEnabled = true ∧
        calcLevel voltage ≤ (lowPowerIndicator now s).autoOffThreshold <;>
      simp [loop, samplingPhase, turnOff, hf1, hf2, hf3, h, hp, hao, Nat.not_lt.mpr h]
  · simp [loop, samplingPhase, turnOff, hf1, hf2, hf3, hf7, hf8, hf9, h, hp,
      Nat.not_lt.mpr h]
  · have hp2 : ¬ (lowPowerIndicator now s).batteryPin < 0 := by
      rw [hf1]
      omega
    by_cases hao : (lowPowerIndicator now s).autoOffEnabled = true ∧
        calcLevel voltage ≤ (lowPowerIndicator now s).autoOffThreshold <;>
      simp [loop, samplingPhase, turnOff, hp2, hao, Nat.not_lt.mpr h, hf2]
  · simp [loop, samplingPhase, hf2, hf7, h]

theorem C7_loop_ordering_witness :
    (loop unknownCalculateLevel 1000 false 0 c7state =
      samplingPhase unknownCalculateLevel 1000 0
        (lowPowerIndicator 1000 c7state)) ∧
    (loop unknownCalculateLevel 1000 false 0 c7state =
      lowPowerIndicator 1000 c7state) ∧
    ((loop unknownCalculateLevel 6000 false 0 c7nopin).nextReadTime =
      (6000 + c7nopin.readingInterval) % U32 ∧
     (loop unknownCalculateLevel 6000 false 0 c7nopin).lastReadTime = 6000) ∧
    ((loop unknownCalculateLevel 6000 false 0 c7nopin).batVoltage =
        c7nopin.batVoltage ∧
      (loop unknownCalculateLevel 6000 false 0 c7nopin).batLevel =
        c7nopin.batLevel ∧
      (loop unknownCalculateLevel 6000 false 0 c7nopin).initializing =
        c7nopin.initializing) ∧
    ((loop unknownCalculateLevel 6000 false 0 c7state).initializing = false) ∧
    ((loop unknownCalculateLevel 1000 false 0 c7state).initializing =
      c7state.initializing) :=
  ⟨(C7_loop_ordering unknownCalculateLevel 1000 0 c7state).1,
   (C7_loop_ordering unknownCalculateLevel 1000 0 c7state).2.1 (by decide),
   (C7_loop_ordering unknownCalculateLevel 6000 0 c7nopin).2.2.1 (by decide),
   (C7_loop_ordering unknownCalculateLevel 6000 0 c7nopin).2.2.2.1 (by decide)
     (by decide),
   (C7_loop_ordering unknownCalculateLevel 6000 0 c7state).2.2.2.2.1 (by decide)
     (by decide),
   (C7_loop_ordering unknownCalculateLevel 1000 0 c7state).2.2.2.2.2 (by decide)⟩

/-- C8 (confirmed): `setReadingInterval(x)` stores `max(3000, x)`; in
particular every argument below 3000 yields exactly 3000 ms. -/
theorem C8_setReadingInterval_min (x : Nat) (s : BatteryState) :
    (setReadingInterval x s).readingInterval = max 3000 x ∧
    (x < 3000 → (setReadingInterval x s).readingInterval = 3000) := by
  refine ⟨rfl, fun h => ?_⟩
  simp [setReadingInterval]
  omega

theorem C8_setReadingInterval_min_witness :
    (setReadingInterval 100 mkState).readingInterval = 3000 :=
  (C8_setReadingInterval_min 100 mkState).2 (by decide)

/-- C9 (confirmed): on a tick that samples (pin valid, sample due, strip not
updating) with auto-off enabled and any auto-off threshold ≥ −1 — which
holds for every threshold clamped into [0,100] — the `Unkown` chemistry
null model makes the level −1, the comparison
`autoOffThreshold >= bat->getLevel()` succeeds, and the shutdown fires:
brightness becomes 0 and one state update is issued. -/
theorem C9_unknown_level_auto_off (now : Nat) (voltage : Int) (s : BatteryState)
    (hAo : s.autoOffEnabled = true)
    (hThr : -1 ≤ s.autoOffThreshold)
    (hPin : 0 ≤ s.batteryPin)
    (hDue : s.nextReadTime ≤ now) :
    (loop unknownCalculateLevel now false voltage s).batLevel = -1 ∧
    (loop unknownCalculateLevel now false voltage s).bri = 0 ∧
    (loop unknownCalculateLevel now false voltage s).stateUpdates =
      s.stateUpdates + 1 := by
  obtain ⟨hf1, hf2, hf3, hf4, hf5, hf6, hf7, hf8, hf9, hf10, hf11⟩ :=
    lowPowerIndicator_frame now s
  have hp2 : ¬ (lowPowerIndicator now s).batteryPin < 0 := by
    rw [hf1]
    omega
  have hao : (lowPowerIndicator now s).autoOffEnabled = true := by
    rw [hf5, hAo]
  simp [loop, samplingPhase, turnOff, unknownCalculateLevel, hp2, hao, hf6, hThr,
    Nat.not_lt.mpr hDue, hf2, hf11]

theorem C9_unknown_level_auto_off_witness :
    (loop unknownCalculateLevel 3000 false 0 c9state).batLevel = -1 ∧
    (loop unknownCalculateLevel 3000 false 0 c9state).bri = 0 ∧
    (loop unknownCalculateLevel 3000 false 0 c9state).stateUpdates =
      c9state.stateUpdates + 1 :=
  C9_unknown_level_auto_off 3000 0 c9state (by decide) (by decide) (by decide)
    (by decide)

/-- C10 (confirmed): the "Next update" value is
`(nextReadTime - millis()) / 1000` in unsigned 32-bit arithmetic: whenever
`millis()` has passed `nextReadTime`, the subtraction wraps modulo 2^32, the
reported value equals `(nextReadTime + 2^32 - now) / 1000`, and for any
overdue gap of at most 2^31 ms it is at least 2147483 seconds — a huge
positive number instead of 0. -/
theorem C10_next_update_wrap (nextReadTime now : Nat)
    (hn : nextReadTime < U32) (hm : now < U32) (hlt : nextReadTime < now) :
    nextUpdateSeconds nextReadTime now = (nextReadTime + U32 - now) / 1000 ∧
    (now - nextReadTime ≤ 2147483648 →
      2147483 ≤ nextUpdateSeconds nextReadTime now) := by
  unfold nextUpdateSeconds U32 at *
  refine ⟨by omega, fun h => by omega⟩

theorem C10_next_update_wrap_witness :
    nextUpdateSeconds 1000 2000 = (1000 + U32 - 2000) / 1000 ∧
    2147483 ≤ nextUpdateSeconds 1000 2000 :=
  ⟨(C10_next_update_wrap 1000 2000 (by decide) (by decide) (by decide)).1,
   (C10_next_update_wrap 1000 2000 (by decide) (by decide) (by decide)).2
     (by decide)⟩

end WledBattery
